import Mathlib

/-!
Verification of the portfolio backend (server in `server.js`, credential
vault in `secure-email-credentials.js`): contact store operations, session
registry with sliding expiration, admin route gating, login/logout,
request sanitization, credential decryption, and the email retry loop.
Machine integers are modelled as `Nat` (epoch milliseconds, ids); JSON
values as an inductive type; the in-memory `sessions` Map as an
association list; fallible operations return `Option` or a response code.
-/

namespace Portfolio

/-- 24 hours in milliseconds, the session lifetime constant
`24 * 60 * 60 * 1000` used by the server. -/
def dayMs : Nat := 24 * 60 * 60 * 1000

/-- A stored contact submission, as written to `contacts.json` by the
`POST /api/save-contact` handler. -/
structure ContactRecord where
  id : Nat
  name : String
  email : String
  message : String
  timestamp : String
  ip : String
  userAgent : String
deriving Repr, DecidableEq

/-- A session record, the value type of the in-memory `sessions` Map. -/
structure SessionRecord where
  username : String
  createdAt : Nat
  expiresAt : Nat
  ip : String
  userAgent : String
deriving Repr, DecidableEq

/-- The in-memory `sessions` Map, embedded as an association list from
session-id tokens to records. -/
abbrev Sessions := List (String × SessionRecord)

/-- `sessions.get(k)` / `sessions.has(k)`. -/
def sessionsGet (m : Sessions) (k : String) : Option SessionRecord :=
  (m.find? (fun p => p.1 = k)).map (fun p => p.2)

/-- `sessions.delete(k)`. -/
def sessionsDelete (m : Sessions) (k : String) : Sessions :=
  m.filter (fun p => p.1 ≠ k)

/-- In-place mutation of the record stored under an existing key
(`session.expiresAt = ...` after `sessions.get(sessionId)`). -/
def sessionsUpdate (m : Sessions) (k : String) (v : SessionRecord) : Sessions :=
  m.map (fun p => if p.1 = k then (p.1, v) else p)

/-- JavaScript `a || b` on possibly-absent strings: an absent value and the
empty string are both falsy, so they fall through to `b`. -/
def jsOr (a b : Option String) : Option String :=
  match a with
  | some s => if s = "" then b else some s
  | none => b

/-- Collapse a falsy (empty-string) final result to `none`, matching the
`if (!sessionId ...)` guards in the server. -/
def jsTruthy (a : Option String) : Option String :=
  match a with
  | some s => if s = "" then none else some s
  | none => none

/-- The relevant parts of an inbound HTTP request: the three token-carrying
headers/cookie, the `session` query parameter, and the (mount-relative)
URL used for the static-file bypass in the `/admin` middleware. -/
structure Req where
  authorization : Option String := none
  xSessionId : Option String := none
  cookieAdminSession : Option String := none
  querySession : Option String := none
  url : String := ""
deriving Repr, DecidableEq

/-- Token extraction in `requireAuth`:
`req.headers.authorization || req.headers['x-session-id'] || req.cookies?.adminSession`.
Note the `session` query parameter is NOT consulted here. -/
def requireAuthToken (req : Req) : Option String :=
  jsTruthy (jsOr req.authorization (jsOr req.xSessionId req.cookieAdminSession))

/-- Token extraction in the `app.use("/admin")` middleware:
`req.headers.authorization || req.headers['x-session-id'] || req.query.session || req.cookies?.adminSession`. -/
def adminMwToken (req : Req) : Option String :=
  jsTruthy (jsOr req.authorization
    (jsOr req.xSessionId (jsOr req.querySession req.cookieAdminSession)))

/-- Outcome of the `requireAuth` middleware. `unauthenticated` is the 401
"Authentication required" response, `expired` the 401 "Session expired"
response, `ok` means `next()` was called. -/
inductive AuthOutcome where
  | unauthenticated
  | expired
  | ok
deriving Repr, DecidableEq

/-- The `requireAuth` middleware: looks the token up in the session map,
rejects absent/unknown tokens, deletes and rejects expired records, and
otherwise extends `expiresAt` to `now + 24h` before calling `next()`. -/
def requireAuth (now : Nat) (m : Sessions) (req : Req) : AuthOutcome × Sessions :=
  match requireAuthToken req with
  | none => (.unauthenticated, m)
  | some sid =>
    match sessionsGet m sid with
    | none => (.unauthenticated, m)
    | some s =>
      if s.expiresAt < now then (.expired, sessionsDelete m sid)
      else (.ok, sessionsUpdate m sid { s with expiresAt := now + dayMs })

/-- `pat` is a prefix of `l` (character lists). -/
def hasPrefixChars : List Char → List Char → Bool
  | _, [] => true
  | [], _ :: _ => false
  | c :: cs, p :: ps => c = p && hasPrefixChars cs ps

/-- `pat` occurs somewhere in `l` (character lists). -/
def hasSubstrChars : List Char → List Char → Bool
  | [], pat => pat.isEmpty
  | c :: cs, pat => hasPrefixChars (c :: cs) pat || hasSubstrChars cs pat

/-- `s` contains `pat` as a substring (model of JavaScript
`String.prototype.includes`). -/
def strContains (s pat : String) : Bool :=
  hasSubstrChars s.toList pat.toList

/-- Outcome of the `app.use("/admin")` middleware: either redirect to
`/login` or fall through to the next handler. -/
inductive MwOutcome where
  | redirectLogin
  | next
deriving Repr, DecidableEq

/-- The `app.use("/admin")` middleware: static sub-resources (URL contains
a dot but not ".html") bypass auth; otherwise the token (which here may
also come from the `session` query parameter) must name an unexpired
session or the request is redirected to `/login`. A valid session is NOT
extended here. -/
def adminMiddleware (now : Nat) (m : Sessions) (req : Req) : MwOutcome × Sessions :=
  if strContains req.url "." ∧ ¬ strContains req.url ".html" then (.next, m)
  else
    match adminMwToken req with
    | none => (.redirectLogin, m)
    | some sid =>
      match sessionsGet m sid with
      | none => (.redirectLogin, m)
      | some s =>
        if s.expiresAt < now then (.redirectLogin, sessionsDelete m sid)
        else (.next, m)

/-- Result of a request for the `GET /admin/contacts` page. -/
inductive AdminPageResult where
  | redirectLogin
  | unauthorizedJson
  | page (contacts : List ContactRecord)
deriving Repr, DecidableEq

/-- The full middleware pipeline for `GET /admin/contacts`: the mounted
`/admin` middleware runs first, then the route-level `requireAuth`, then
the handler renders the dashboard from the contact store. -/
def adminContactsPage (now : Nat) (m : Sessions) (req : Req)
    (store : List ContactRecord) : AdminPageResult × Sessions :=
  match adminMiddleware now m req with
  | (.redirectLogin, m1) => (.redirectLogin, m1)
  | (.next, m1) =>
    match requireAuth now m1 req with
    | (.ok, m2) => (.page store, m2)
    | (_, m2) => (.unauthorizedJson, m2)

/-- Response of the `POST /api/logout` handler. The handler only ever
sends `{ success: true }` (the catch branch is unreachable in this model
since no step can throw). -/
structure LogoutResp where
  success : Bool
deriving Repr, DecidableEq

/-- The `POST /api/logout` handler: reads the token from
`req.headers.authorization || req.headers['x-session-id']` only (the
`adminSession` cookie is NOT consulted), deletes the record when present,
and always reports success. -/
def logoutHandler (m : Sessions) (req : Req) : LogoutResp × Sessions :=
  match jsTruthy (jsOr req.authorization req.xSessionId) with
  | none => ({ success := true }, m)
  | some sid =>
    match sessionsGet m sid with
    | none => ({ success := true }, m)
    | some _ => ({ success := true }, sessionsDelete m sid)

/-- Response of the `DELETE /api/contacts/:id` handler. -/
structure DeleteResp where
  status : Nat
  success : Bool
  remaining : Option Nat
deriving Repr, DecidableEq

/-- The `DELETE /api/contacts/:id` handler body (after `requireAuth`):
filters out every record whose `id` equals the parsed route parameter;
if the length is unchanged responds 404 without writing, otherwise writes
the filtered list back and responds with the remaining count. -/
def deleteContactById (contactId : Nat) (store : List ContactRecord) :
    DeleteResp × List ContactRecord :=
  let kept := store.filter (fun c => c.id ≠ contactId)
  if kept.length = store.length then
    ({ status := 404, success := false, remaining := none }, store)
  else
    ({ status := 200, success := true, remaining := some kept.length }, kept)

/-- The `GET /api/contacts` handler: returns the full stored array. -/
def getContacts (store : List ContactRecord) : List ContactRecord :=
  store

/-- The body of a `POST /api/save-contact` request as delivered to the
validation chain (fields already passed through the global sanitization
middleware). A missing field is modelled as the empty string, which fails
the same length checks. -/
structure ContactBody where
  name : String
  email : String
  message : String
  timestamp : Option String := none
deriving Repr, DecidableEq

/-- A character allowed by the name validator regex `/^[a-zA-Z\s\-'.]+$/`:
ASCII letters, whitespace, hyphen, apostrophe (`Char.ofNat 39`), period. -/
def nameCharOk (c : Char) : Bool :=
  c.isAlpha || c = ' ' || c = '\t' || c = '\n' || c = '\r' ||
  c = '-' || c = Char.ofNat 39 || c = '.'

/-- A whitespace character for JavaScript `String.prototype.trim`. -/
def jsWs (c : Char) : Bool :=
  c = ' ' || c = '\t' || c = '\n' || c = '\r' || c = Char.ofNat 11 || c = Char.ofNat 12

/-- JavaScript `s.trim()`: strip whitespace from both ends. -/
def jsTrim (s : String) : String :=
  String.mk (((s.toList.dropWhile jsWs).reverse.dropWhile jsWs).reverse)

/-- JavaScript `s.substring(0, n)`. -/
def strTake (s : String) (n : Nat) : String :=
  String.mk (s.toList.take n)

/-- JavaScript `s.toLowerCase()`. -/
def strLower (s : String) : String :=
  String.mk (s.toList.map Char.toLower)

/-- The express-validator sanitizers on the contact body: `trim()` on
name, email and message (and `normalizeEmail`, whose effect beyond
trimming is external library behavior folded into the email value the
handler receives). -/
def trimBody (b : ContactBody) : ContactBody :=
  { b with name := jsTrim b.name, email := jsTrim b.email, message := jsTrim b.message }

/-- The field validation of `POST /api/save-contact`, applied to the
trimmed body: name 1-100 chars over `nameCharOk`, email accepted by the
validator predicate `emailOk` (the external `isEmail` check), message
1-1000 chars. Returns the per-field error messages. -/
def contactValidationErrors (emailOk : String → Bool) (b : ContactBody) : List String :=
  (if 1 ≤ b.name.length ∧ b.name.length ≤ 100 then [] else
    ["Name must be between 1 and 100 characters"]) ++
  (if b.name.toList.all nameCharOk then [] else
    ["Name contains invalid characters"]) ++
  (if emailOk b.email then [] else ["Valid email is required"]) ++
  (if 1 ≤ b.message.length ∧ b.message.length ≤ 1000 then [] else
    ["Message must be between 1 and 1000 characters"])

/-- Response of the `POST /api/save-contact` handler. `emailSent` is only
present on the success response (the literal `emailSent: true`). -/
structure SaveResp where
  status : Nat
  success : Bool
  id : Option Nat
  emailSent : Option Bool
  errors : List String
deriving Repr, DecidableEq

/-- JavaScript `timestamp || new Date().toISOString()`. -/
def tsOrNow (ts : Option String) (nowIso : String) : String :=
  match ts with
  | some t => if t = "" then nowIso else t
  | none => nowIso

/-- The `POST /api/save-contact` handler: validation errors short-circuit
with a 400 and the error list, leaving the store untouched; otherwise a
record with `id = Date.now()`, lowercased-and-truncated email, and
truncated name/message/userAgent is appended and a 200 success response
carrying that id and `emailSent: true` is sent. -/
def saveContact (emailOk : String → Bool) (now : Nat) (nowIso : String)
    (ip : String) (userAgent : Option String) (b : ContactBody)
    (store : List ContactRecord) : SaveResp × List ContactRecord :=
  let tb := trimBody b
  let errs := contactValidationErrors emailOk tb
  if errs = [] then
    let newContact : ContactRecord :=
      { id := now
        name := strTake tb.name 100
        email := strTake (strLower tb.email) 100
        message := strTake tb.message 1000
        timestamp := tsOrNow tb.timestamp nowIso
        ip := ip
        userAgent := (userAgent.map (fun ua => strTake ua 500)).getD "Unknown" }
    ({ status := 200, success := true, id := some newContact.id,
       emailSent := some true, errors := [] }, store ++ [newContact])
  else
    ({ status := 400, success := false, id := none,
       emailSent := none, errors := errs }, store)

/-! ### NotificationDispatcher: `sendContactEmail` -/

/-- Availability of the two email prerequisites checked inside
`sendContactEmail`: the module-level `transporter` and the result of
`emailCredentials.getCredentials()`. -/
structure EmailEnv where
  transporterPresent : Bool
  credentialsPresent : Bool
deriving Repr, DecidableEq

/-- Outcome of one `transporter.sendMail` call. -/
inductive SendOutcome where
  | sent (messageId : String)
  | errored (msg : String)
deriving Repr, DecidableEq

/-- Whether an outcome is a successful send. -/
def SendOutcome.isSent : SendOutcome → Bool
  | .sent _ => true
  | .errored _ => false

/-- The value `sendContactEmail` resolves with: either
`{ success: true, messageId }` or `{ success: false, error }` — never a
thrown exception. -/
structure SendResult where
  success : Bool
  messageId : Option String
  error : Option String
deriving Repr, DecidableEq

/-- One iteration of the `try` block of `sendContactEmail`: a missing
transporter or missing credentials throws (is caught as an error),
otherwise the `sendMail` outcome for this attempt decides. `sendMail n`
is the outcome of the attempt with `retryCount = n`. -/
def attemptSend (env : EmailEnv) (sendMail : Nat → SendOutcome) (n : Nat) : SendOutcome :=
  if !env.transporterPresent then .errored "Email transporter not initialized"
  else if !env.credentialsPresent then .errored "Email credentials not available"
  else sendMail n

/-- `sendContactEmail(contactData, retryCount)` with `maxRetries = 2`:
on error with `retryCount < 2` it waits 2000 ms and recurses with
`retryCount + 1`; otherwise it resolves. Returns the result together with
the number of attempts made and the total delay in milliseconds. -/
def sendContactEmail (env : EmailEnv) (sendMail : Nat → SendOutcome)
    (retryCount : Nat) : SendResult × Nat × Nat :=
  match attemptSend env sendMail retryCount with
  | .sent mid => ({ success := true, messageId := some mid, error := none }, 1, 0)
  | .errored e =>
    if h : retryCount < 2 then
      let r := sendContactEmail env sendMail (retryCount + 1)
      (r.1, r.2.1 + 1, r.2.2 + 2000)
    else ({ success := false, messageId := none, error := some e }, 1, 0)
termination_by 2 - retryCount
decreasing_by omega

/-! ### CredentialVault: `SecureEmailCredentials.getCredentials` -/

/-- The parsed shape of the encrypted blob file
`{ data: ciphertext, checksum }`. -/
structure EncFile where
  data : String
  checksum : String
deriving Repr, DecidableEq

/-- The state of the encrypted credentials file on disk: missing, present
but not valid JSON (`JSON.parse` throws, caught), or parsed. -/
inductive VaultFile where
  | missing
  | unreadable
  | parsed (f : EncFile)
deriving Repr, DecidableEq

/-- The decrypted credential object on success. -/
structure EmailCredentials where
  user : String
  password : String
  service : String
deriving Repr, DecidableEq

/-- Result of `JSON.parse` on the decrypted plaintext: either not valid
JSON (`bad`) or an object whose `user` / `password` / `service` fields are
each present or absent. -/
inductive PlainParse where
  | bad
  | ok (user password service : Option String)
deriving Repr, DecidableEq

/-- `getCredentials()`: every failure path — missing file, unreadable
file, checksum mismatch over `data + encryptionKey`, empty decryption
output (wrong key; `sha256`, `decrypt` and `parsePlain` model the
CryptoJS/JSON primitives), unparsable plaintext, or a missing/falsy
required field — is caught and returns `none`; the success path returns
the parsed object. Total by construction: no exception propagates. -/
def getCredentials (sha256 : String → String) (decrypt : String → String)
    (parsePlain : String → PlainParse) (encryptionKey : String)
    (file : VaultFile) : Option EmailCredentials :=
  match file with
  | .missing => none
  | .unreadable => none
  | .parsed f =>
    if f.checksum ≠ sha256 (f.data ++ encryptionKey) then none
    else
      let plain := decrypt f.data
      if plain = "" then none
      else
        match parsePlain plain with
        | .bad => none
        | .ok u p s =>
          match u, p, s with
          | some u, some p, some s =>
            if u = "" || p = "" || s = "" then none
            else some { user := u, password := p, service := s }
          | _, _, _ => none

/-! ### RequestGuard: `sanitizeInput` -/

/-- A JSON value, the input domain of the sanitization middleware
(request body, query and params). -/
inductive Json where
  | str (s : String)
  | num (n : Int)
  | bool (b : Bool)
  | null
  | arr (items : List Json)
  | obj (fields : List (String × Json))

/-- `key.replace(/[^a-zA-Z0-9_]/g, '')`: keep only ASCII alphanumerics
and underscore. -/
def keyClean (k : String) : String :=
  String.mk (k.toList.filter (fun c => c.isAlphanum || c = '_'))

/-- `if (sanitizedValue.length > 10000) substring(0, 10000)`. -/
def truncate10000 (s : String) : String :=
  if 10000 < s.length then String.mk (s.toList.take 10000) else s

mutual

/-- `sanitizeInput(obj)`: non-objects (including strings!) are returned
unchanged; arrays map `sanitizeInput` over their items; objects have
their keys cleaned and their field values sanitized per type. The
`strip` parameter is the composed `mongoSanitize` + `xss` string pass. -/
def sanitizeInput (strip : String → String) : Json → Json
  | .str s => .str s
  | .num n => .num n
  | .bool b => .bool b
  | .null => .null
  | .arr items => .arr (sanitizeArr strip items)
  | .obj fields => .obj (sanitizeObj strip fields)

/-- `obj.map(item => sanitizeInput(item))` for arrays. -/
def sanitizeArr (strip : String → String) : List Json → List Json
  | [] => []
  | x :: xs => sanitizeInput strip x :: sanitizeArr strip xs

/-- The `for (const key in obj)` loop: each field gets a cleaned key and a
type-dispatched value. -/
def sanitizeObj (strip : String → String) :
    List (String × Json) → List (String × Json)
  | [] => []
  | (k, v) :: rest => (keyClean k, sanitizeField strip v) :: sanitizeObj strip rest

/-- The per-field value dispatch inside the loop: strings pass through the
strip-and-truncate pipeline, objects (arrays, objects, `null`) recurse via
`sanitizeInput`, everything else passes through unchanged. -/
def sanitizeField (strip : String → String) : Json → Json
  | .str s => .str (truncate10000 (strip s))
  | .arr items => .arr (sanitizeArr strip items)
  | .obj fields => .obj (sanitizeObj strip fields)
  | .null => .null
  | .num n => .num n
  | .bool b => .bool b

end

mutual

/-- Every object key anywhere in the value satisfies the
`[A-Za-z0-9_]`-only rule. -/
def jsonKeysOk : Json → Bool
  | .arr items => listKeysOk items
  | .obj fields => fieldsKeysOk fields
  | _ => true

def listKeysOk : List Json → Bool
  | [] => true
  | x :: xs => jsonKeysOk x && listKeysOk xs

def fieldsKeysOk : List (String × Json) → Bool
  | [] => true
  | (k, v) :: rest =>
    k.toList.all (fun c => c.isAlphanum || c = '_') && jsonKeysOk v && fieldsKeysOk rest

end

/-! ## Helper lemmas -/

theorem sessionsGet_delete_self (m : Sessions) (k : String) :
    sessionsGet (sessionsDelete m k) k = none := by
  induction m with
  | nil => rfl
  | cons p rest ih =>
    by_cases hk : p.1 = k
    · simpa [sessionsDelete, sessionsGet, hk, List.filter] using ih
    · simp only [sessionsDelete, sessionsGet, List.filter] at *
      simp [hk, List.find?, ih]

theorem sessionsGet_update_self (m : Sessions) (k : String) (v : SessionRecord) :
    sessionsGet (sessionsUpdate m k v) k = (sessionsGet m k).map (fun _ => v) := by
  induction m with
  | nil => rfl
  | cons p rest ih =>
    by_cases hk : p.1 = k
    · simp [sessionsUpdate, sessionsGet, List.find?, hk]
    · simp only [sessionsUpdate, List.map, if_neg hk]
      simp only [sessionsGet, List.find?, hk] at *
      simpa [sessionsUpdate] using ih

theorem keyClean_ok (k : String) :
    (keyClean k).toList.all (fun c => c.isAlphanum || c = '_') = true := by
  simp only [keyClean, List.all_eq_true]
  intro c hc
  have h : c ∈ k.toList.filter (fun c => c.isAlphanum || c = '_') := by
    simpa [String.toList] using hc
  exact (List.mem_filter.mp h).2

mutual

theorem sanitize_keys (strip : String → String) (j : Json) :
    jsonKeysOk (sanitizeInput strip j) = true := by
  match j with
  | .str s => rfl
  | .num n => rfl
  | .bool b => rfl
  | .null => rfl
  | .arr items => simpa [sanitizeInput, jsonKeysOk] using sanitizeArr_keys strip items
  | .obj fields => simpa [sanitizeInput, jsonKeysOk] using sanitizeObj_keys strip fields

theorem sanitizeArr_keys (strip : String → String) (l : List Json) :
    listKeysOk (sanitizeArr strip l) = true := by
  match l with
  | [] => rfl
  | x :: xs =>
    simp only [sanitizeArr, listKeysOk, Bool.and_eq_true]
    exact ⟨sanitize_keys strip x, sanitizeArr_keys strip xs⟩

theorem sanitizeObj_keys (strip : String → String) (l : List (String × Json)) :
    fieldsKeysOk (sanitizeObj strip l) = true := by
  match l with
  | [] => rfl
  | (k, v) :: rest =>
    simp only [sanitizeObj, fieldsKeysOk, Bool.and_eq_true]
    exact ⟨⟨keyClean_ok k, sanitizeField_keys strip v⟩, sanitizeObj_keys strip rest⟩

theorem sanitizeField_keys (strip : String → String) (v : Json) :
    jsonKeysOk (sanitizeField strip v) = true := by
  match v with
  | .str s => rfl
  | .num n => rfl
  | .bool b => rfl
  | .null => rfl
  | .arr items => simpa [sanitizeField, jsonKeysOk] using sanitizeArr_keys strip items
  | .obj fields => simpa [sanitizeField, jsonKeysOk] using sanitizeObj_keys strip fields

end

theorem sanitizeArr_eq_map (strip : String → String) (l : List Json) :
    sanitizeArr strip l = l.map (sanitizeInput strip) := by
  induction l with
  | nil => rfl
  | cons x xs ih => simp [sanitizeArr, ih]

theorem truncate10000_length (s : String) : (truncate10000 s).length ≤ 10000 := by
  unfold truncate10000
  split
  · show (s.toList.take 10000).length ≤ 10000
    exact List.length_take_le 10000 s.toList
  · omega

/-! ## Claims -/

/-- C1: `DELETE /api/contacts/:id` — on an id no stored record has, it
responds 404 and leaves the store unchanged; on a present id it responds
200, the store becomes the list filtered of that id (in particular the
first matching record is removed), the response carries the remaining
count, and a subsequent `GET /api/contacts` excludes exactly that id and
no other record. -/
theorem delete_contact_spec (i : Nat) (s : List ContactRecord) :
    ((∀ r ∈ s, r.id ≠ i) →
      deleteContactById i s = ({ status := 404, success := false, remaining := none }, s)) ∧
    ((∃ r ∈ s, r.id = i) →
      (deleteContactById i s).1.status = 200 ∧
      (deleteContactById i s).2 = s.filter (fun c => c.id ≠ i) ∧
      (deleteContactById i s).1.remaining = some (deleteContactById i s).2.length ∧
      (∀ r ∈ getContacts (deleteContactById i s).2, r.id ≠ i) ∧
      (∀ r ∈ s, r.id ≠ i → r ∈ getContacts (deleteContactById i s).2)) := by
  constructor
  · intro h
    have hf : s.filter (fun c => c.id ≠ i) = s :=
      List.filter_eq_self.mpr (fun a ha => by simpa using h a ha)
    have hcond : (s.filter (fun c => c.id ≠ i)).length = s.length := by rw [hf]
    simp only [deleteContactById]
    rw [if_pos hcond]
  · rintro ⟨r, hr, hid⟩
    have hlt : (s.filter (fun c => c.id ≠ i)).length < s.length := by
      rcases Nat.lt_or_ge (s.filter (fun c => c.id ≠ i)).length s.length with h | h
      · exact h
      · exfalso
        have hle := List.length_filter_le (fun c => c.id ≠ i) s
        have heq : s.filter (fun c => c.id ≠ i) = s :=
          (List.filter_sublist s).eq_of_length (Nat.le_antisymm hle h)
        have hm : r ∈ s.filter (fun c => c.id ≠ i) := by rw [heq]; exact hr
        have : r.id ≠ i := by simpa using (List.mem_filter.mp hm).2
        exact this hid
    have hne : ¬ (s.filter (fun c => c.id ≠ i)).length = s.length := Nat.ne_of_lt hlt
    have hres : deleteContactById i s =
        ({ status := 200, success := true,
           remaining := some (s.filter (fun c => c.id ≠ i)).length },
          s.filter (fun c => c.id ≠ i)) := by
      simp only [deleteContactById]
      rw [if_neg hne]
    refine ⟨by rw [hres], by rw [hres], by rw [hres], ?_, ?_⟩
    · intro x hx
      rw [hres] at hx
      simpa using (List.mem_filter.mp hx).2
    · intro x hx hxid
      rw [hres]
      exact List.mem_filter.mpr ⟨hx, by simpa using hxid⟩

/-- Witness for C1: with records of ids 5 and 7 stored, deleting id 3 is a
404 no-op, and deleting id 5 responds 200 with remaining count 1 and
leaves exactly the id-7 record. -/
theorem delete_contact_spec_witness :
    (deleteContactById 3
        [{ id := 5, name := "A", email := "a@x.com", message := "m", timestamp := "t",
           ip := "ip", userAgent := "ua" },
         { id := 7, name := "B", email := "b@x.com", message := "n", timestamp := "t",
           ip := "ip", userAgent := "ua" }] =
      ({ status := 404, success := false, remaining := none },
        [{ id := 5, name := "A", email := "a@x.com", message := "m", timestamp := "t",
           ip := "ip", userAgent := "ua" },
         { id := 7, name := "B", email := "b@x.com", message := "n", timestamp := "t",
           ip := "ip", userAgent := "ua" }])) ∧
    (deleteContactById 5
        [{ id := 5, name := "A", email := "a@x.com", message := "m", timestamp := "t",
           ip := "ip", userAgent := "ua" },
         { id := 7, name := "B", email := "b@x.com", message := "n", timestamp := "t",
           ip := "ip", userAgent := "ua" }]).1.status = 200 := by
  constructor
  · exact (delete_contact_spec 3 _).1 (by decide)
  · exact ((delete_contact_spec 5 _).2 (by decide)).1

/-- `requireAuth` with no extractable token: 401 unauthenticated. -/
theorem requireAuth_eq_no_token (now : Nat) (m : Sessions) (req : Req)
    (htok : requireAuthToken req = none) :
    requireAuth now m req = (.unauthenticated, m) := by
  unfold requireAuth
  simp only [htok]

/-- `requireAuth` with a token absent from the registry: 401 unauthenticated. -/
theorem requireAuth_eq_unknown (now : Nat) (m : Sessions) (req : Req) (sid : String)
    (htok : requireAuthToken req = some sid) (hget : sessionsGet m sid = none) :
    requireAuth now m req = (.unauthenticated, m) := by
  unfold requireAuth
  simp only [htok, hget]

/-- `requireAuth` on an expired record: delete it, 401 expired. -/
theorem requireAuth_eq_expired (now : Nat) (m : Sessions) (req : Req) (sid : String)
    (s : SessionRecord) (htok : requireAuthToken req = some sid)
    (hget : sessionsGet m sid = some s) (he : s.expiresAt < now) :
    requireAuth now m req = (.expired, sessionsDelete m sid) := by
  unfold requireAuth
  simp only [htok, hget]
  rw [if_pos he]

/-- `requireAuth` on a live record: extend it to `now + 24h`, `next()`. -/
theorem requireAuth_eq_ok (now : Nat) (m : Sessions) (req : Req) (sid : String)
    (s : SessionRecord) (htok : requireAuthToken req = some sid)
    (hget : sessionsGet m sid = some s) (he : ¬ s.expiresAt < now) :
    requireAuth now m req =
      (.ok, sessionsUpdate m sid { s with expiresAt := now + dayMs }) := by
  unfold requireAuth
  simp only [htok, hget]
  rw [if_neg he]

/-- The `/admin` middleware on a static sub-resource URL: auth bypass. -/
theorem adminMiddleware_eq_static (now : Nat) (m : Sessions) (req : Req)
    (hc : strContains req.url "." = true ∧ ¬ strContains req.url ".html" = true) :
    adminMiddleware now m req = (.next, m) := by
  unfold adminMiddleware
  rw [if_pos hc]

/-- The `/admin` middleware, non-static URL, no token: redirect. -/
theorem adminMiddleware_eq_no_token (now : Nat) (m : Sessions) (req : Req)
    (hc : ¬ (strContains req.url "." = true ∧ ¬ strContains req.url ".html" = true))
    (htok : adminMwToken req = none) :
    adminMiddleware now m req = (.redirectLogin, m) := by
  unfold adminMiddleware
  rw [if_neg hc]
  simp only [htok]

/-- The `/admin` middleware, non-static URL, unknown token: redirect. -/
theorem adminMiddleware_eq_unknown (now : Nat) (m : Sessions) (req : Req) (sid : String)
    (hc : ¬ (strContains req.url "." = true ∧ ¬ strContains req.url ".html" = true))
    (htok : adminMwToken req = some sid) (hget : sessionsGet m sid = none) :
    adminMiddleware now m req = (.redirectLogin, m) := by
  unfold adminMiddleware
  rw [if_neg hc]
  simp only [htok, hget]

/-- The `/admin` middleware, non-static URL, expired session: delete it
and redirect. -/
theorem adminMiddleware_eq_expired (now : Nat) (m : Sessions) (req : Req) (sid : String)
    (s : SessionRecord)
    (hc : ¬ (strContains req.url "." = true ∧ ¬ strContains req.url ".html" = true))
    (htok : adminMwToken req = some sid) (hget : sessionsGet m sid = some s)
    (he : s.expiresAt < now) :
    adminMiddleware now m req = (.redirectLogin, sessionsDelete m sid) := by
  unfold adminMiddleware
  rw [if_neg hc]
  simp only [htok, hget]
  rw [if_pos he]

/-- The `/admin` middleware, non-static URL, live session: `next()`
WITHOUT extending the session. -/
theorem adminMiddleware_eq_valid (now : Nat) (m : Sessions) (req : Req) (sid : String)
    (s : SessionRecord)
    (hc : ¬ (strContains req.url "." = true ∧ ¬ strContains req.url ".html" = true))
    (htok : adminMwToken req = some sid) (hget : sessionsGet m sid = some s)
    (he : ¬ s.expiresAt < now) :
    adminMiddleware now m req = (.next, m) := by
  unfold adminMiddleware
  rw [if_neg hc]
  simp only [htok, hget]
  rw [if_neg he]

/-- Rewriting `adminContactsPage` once the middleware result is known. -/
theorem adminContactsPage_mw_next (now : Nat) (m : Sessions) (req : Req)
    (store : List ContactRecord) (hmw : adminMiddleware now m req = (.next, m)) :
    adminContactsPage now m req store =
      (match requireAuth now m req with
        | (.ok, m2) => (.page store, m2)
        | (_, m2) => (.unauthorizedJson, m2)) := by
  unfold adminContactsPage
  rw [hmw]

/-- Rewriting `adminContactsPage` when the middleware redirects. -/
theorem adminContactsPage_mw_redirect (now : Nat) (m : Sessions) (req : Req)
    (store : List ContactRecord) (m1 : Sessions)
    (hmw : adminMiddleware now m req = (.redirectLogin, m1)) :
    adminContactsPage now m req store = (.redirectLogin, m1) := by
  unfold adminContactsPage
  rw [hmw]

/-- C2: session validation (`requireAuth`) on a request carrying token
`sid` — a token absent from the registry is rejected as unauthenticated
with the map unchanged; a record with `expiresAt < now` is deleted and the
request rejected as expired; otherwise the request is accepted and the
record extended to `expiresAt = now + 24h` (sliding expiration). The last
conjunct shows the extension also happens on an admin page-route request:
whenever `GET /admin/contacts` actually serves the page, the token's
record in the final session map has `expiresAt = now + 24h`. -/
theorem session_validation_spec (now : Nat) (m : Sessions) (req : Req) (sid : String)
    (htok : requireAuthToken req = some sid) :
    (sessionsGet m sid = none → requireAuth now m req = (.unauthenticated, m)) ∧
    (∀ s, sessionsGet m sid = some s → s.expiresAt < now →
      (requireAuth now m req).1 = .expired ∧
      sessionsGet (requireAuth now m req).2 sid = none) ∧
    (∀ s, sessionsGet m sid = some s → ¬ s.expiresAt < now →
      (requireAuth now m req).1 = .ok ∧
      sessionsGet (requireAuth now m req).2 sid =
        some { s with expiresAt := now + dayMs }) ∧
    (∀ store res m2, adminContactsPage now m req store = (.page res, m2) →
      ∃ s, sessionsGet m2 sid = some s ∧ s.expiresAt = now + dayMs) := by
  refine ⟨?_, ?_, ?_, ?_⟩
  · intro hget
    exact requireAuth_eq_unknown now m req sid htok hget
  · intro s hget he
    rw [requireAuth_eq_expired now m req sid s htok hget he]
    exact ⟨rfl, sessionsGet_delete_self m sid⟩
  · intro s hget he
    rw [requireAuth_eq_ok now m req sid s htok hget he]
    refine ⟨rfl, ?_⟩
    rw [sessionsGet_update_self, hget]
    rfl
  · intro store res m2 hpage
    by_cases hc : strContains req.url "." = true ∧ ¬ strContains req.url ".html" = true
    case neg =>
      rcases hmt : adminMwToken req with _ | sidq
      · rw [adminContactsPage_mw_redirect now m req store m
          (adminMiddleware_eq_no_token now m req hc hmt)] at hpage
        exact absurd hpage (by simp)
      · rcases hgq : sessionsGet m sidq with _ | sq
        · rw [adminContactsPage_mw_redirect now m req store m
            (adminMiddleware_eq_unknown now m req sidq hc hmt hgq)] at hpage
          exact absurd hpage (by simp)
        · by_cases heq : sq.expiresAt < now
          · rw [adminContactsPage_mw_redirect now m req store _
              (adminMiddleware_eq_expired now m req sidq sq hc hmt hgq heq)] at hpage
            exact absurd hpage (by simp)
          · rw [adminContactsPage_mw_next now m req store
              (adminMiddleware_eq_valid now m req sidq sq hc hmt hgq heq)] at hpage
            rcases hget : sessionsGet m sid with _ | s
            · rw [requireAuth_eq_unknown now m req sid htok hget] at hpage
              exact absurd hpage (by simp)
            · by_cases he : s.expiresAt < now
              · rw [requireAuth_eq_expired now m req sid s htok hget he] at hpage
                exact absurd hpage (by simp)
              · rw [requireAuth_eq_ok now m req sid s htok hget he] at hpage
                simp only [Prod.mk.injEq] at hpage
                refine ⟨{ s with expiresAt := now + dayMs }, ?_, rfl⟩
                rw [← hpage.2, sessionsGet_update_self, hget]
                rfl
    case pos =>
      rw [adminContactsPage_mw_next now m req store
        (adminMiddleware_eq_static now m req hc)] at hpage
      rcases hget : sessionsGet m sid with _ | s
      · rw [requireAuth_eq_unknown now m req sid htok hget] at hpage
        exact absurd hpage (by simp)
      · by_cases he : s.expiresAt < now
        · rw [requireAuth_eq_expired now m req sid s htok hget he] at hpage
          exact absurd hpage (by simp)
        · rw [requireAuth_eq_ok now m req sid s htok hget he] at hpage
          simp only [Prod.mk.injEq] at hpage
          refine ⟨{ s with expiresAt := now + dayMs }, ?_, rfl⟩
          rw [← hpage.2, sessionsGet_update_self, hget]
          rfl

/-- Witness for C2: with one stored session `tok` expiring at 5000 — an
unknown token is rejected with the map unchanged; at time 9000 the record
is expired and deleted; at time 1000 the request is accepted; and a page
load of `/admin/contacts` with the token in the cookie leaves the record
extended to `1000 + 24h`. -/
theorem session_validation_spec_witness :
    (requireAuth 1000
        [("tok", { username := "admin", createdAt := 0, expiresAt := 5000,
                   ip := "ip", userAgent := "ua" })]
        { authorization := some "other" } =
      (.unauthenticated,
        [("tok", { username := "admin", createdAt := 0, expiresAt := 5000,
                   ip := "ip", userAgent := "ua" })])) ∧
    ((requireAuth 9000
        [("tok", { username := "admin", createdAt := 0, expiresAt := 5000,
                   ip := "ip", userAgent := "ua" })]
        { authorization := some "tok" }).1 = .expired) ∧
    ((requireAuth 1000
        [("tok", { username := "admin", createdAt := 0, expiresAt := 5000,
                   ip := "ip", userAgent := "ua" })]
        { authorization := some "tok" }).1 = .ok) ∧
    (∃ s, sessionsGet
        [("tok", { username := "admin", createdAt := 0, expiresAt := 86401000,
                   ip := "ip", userAgent := "ua" })] "tok" =
        some s ∧ s.expiresAt = 1000 + dayMs) := by
  refine ⟨?_, ?_, ?_, ?_⟩
  · exact (session_validation_spec 1000
      [("tok", { username := "admin", createdAt := 0, expiresAt := 5000,
                 ip := "ip", userAgent := "ua" })]
      { authorization := some "other" } "other" (by decide)).1 (by decide)
  · exact ((session_validation_spec 9000
      [("tok", { username := "admin", createdAt := 0, expiresAt := 5000,
                 ip := "ip", userAgent := "ua" })]
      { authorization := some "tok" } "tok" (by decide)).2.1
      { username := "admin", createdAt := 0, expiresAt := 5000,
        ip := "ip", userAgent := "ua" } (by decide) (by decide)).1
  · exact ((session_validation_spec 1000
      [("tok", { username := "admin", createdAt := 0, expiresAt := 5000,
                 ip := "ip", userAgent := "ua" })]
      { authorization := some "tok" } "tok" (by decide)).2.2.1
      { username := "admin", createdAt := 0, expiresAt := 5000,
        ip := "ip", userAgent := "ua" } (by decide) (by decide)).1
  · exact (session_validation_spec 1000
      [("tok", { username := "admin", createdAt := 0, expiresAt := 5000,
                 ip := "ip", userAgent := "ua" })]
      { cookieAdminSession := some "tok", url := "/contacts" } "tok" (by decide)).2.2.2
      [] []
      [("tok", { username := "admin", createdAt := 0, expiresAt := 86401000,
                 ip := "ip", userAgent := "ua" })] (by decide)

/-- C3 counterexample: a page load of `/admin/contacts` carrying a valid,
unexpired token ONLY in the `session` query parameter does NOT succeed:
the mounted `/admin` middleware accepts the query token, but the
route-level `requireAuth` only reads the Authorization header, the
`x-session-id` header and the `adminSession` cookie, so the request is
rejected with a 401 JSON body instead of the page. -/
theorem admin_query_token_counterexample :
    (sessionsGet
        [("tok", { username := "admin", createdAt := 0, expiresAt := 5000,
                   ip := "ip", userAgent := "ua" })] "tok" =
      some { username := "admin", createdAt := 0, expiresAt := 5000,
             ip := "ip", userAgent := "ua" }) ∧
    ¬ (5000 : Nat) < 1000 ∧
    ((adminContactsPage 1000
        [("tok", { username := "admin", createdAt := 0, expiresAt := 5000,
                   ip := "ip", userAgent := "ua" })]
        { querySession := some "tok", url := "/contacts?session=tok" } []).1 =
      .unauthorizedJson) ∧
    (∀ cs, (adminContactsPage 1000
        [("tok", { username := "admin", createdAt := 0, expiresAt := 5000,
                   ip := "ip", userAgent := "ua" })]
        { querySession := some "tok", url := "/contacts?session=tok" } []).1 ≠
      .page cs) := by
  refine ⟨by decide, by decide, by decide, ?_⟩
  intro cs
  have h : (adminContactsPage 1000
      [("tok", { username := "admin", createdAt := 0, expiresAt := 5000,
                 ip := "ip", userAgent := "ua" })]
      { querySession := some "tok", url := "/contacts?session=tok" } []).1 =
      .unauthorizedJson := by decide
  rw [h]
  intro hcontr
  exact absurd hcontr (by simp)

/-- C3 (amended): for a non-static admin page-route request — a token
via Authorization header, `x-session-id` header or `adminSession` cookie
that names a live session yields the page (and extends the session); a
missing or unknown token redirects to `/login`; an expired token deletes
the session and redirects; a valid token carried ONLY in the `session`
query parameter passes the mounted middleware but is then rejected by the
route-level `requireAuth` with 401 JSON. For API routes under
`requireAuth`, missing/unknown/expired tokens yield the 401 JSON
outcomes. -/
theorem admin_gating_spec (now : Nat) (m : Sessions) (req : Req)
    (store : List ContactRecord)
    (hc : ¬ (strContains req.url "." = true ∧ ¬ strContains req.url ".html" = true)) :
    (adminMwToken req = none →
      adminContactsPage now m req store = (.redirectLogin, m)) ∧
    (∀ sid, adminMwToken req = some sid → sessionsGet m sid = none →
      adminContactsPage now m req store = (.redirectLogin, m)) ∧
    (∀ sid s, adminMwToken req = some sid → sessionsGet m sid = some s →
      s.expiresAt < now →
      adminContactsPage now m req store = (.redirectLogin, sessionsDelete m sid)) ∧
    (∀ sid s, adminMwToken req = some sid → requireAuthToken req = some sid →
      sessionsGet m sid = some s → ¬ s.expiresAt < now →
      adminContactsPage now m req store =
        (.page store, sessionsUpdate m sid { s with expiresAt := now + dayMs })) ∧
    (∀ sid s, adminMwToken req = some sid → requireAuthToken req = none →
      sessionsGet m sid = some s → ¬ s.expiresAt < now →
      adminContactsPage now m req store = (.unauthorizedJson, m)) ∧
    (requireAuthToken req = none → (requireAuth now m req).1 = .unauthenticated) ∧
    (∀ sid, requireAuthToken req = some sid → sessionsGet m sid = none →
      (requireAuth now m req).1 = .unauthenticated) ∧
    (∀ sid s, requireAuthToken req = some sid → sessionsGet m sid = some s →
      s.expiresAt < now → (requireAuth now m req).1 = .expired) := by
  refine ⟨?_, ?_, ?_, ?_, ?_, ?_, ?_, ?_⟩
  · intro htok
    exact adminContactsPage_mw_redirect now m req store m
      (adminMiddleware_eq_no_token now m req hc htok)
  · intro sid htok hget
    exact adminContactsPage_mw_redirect now m req store m
      (adminMiddleware_eq_unknown now m req sid hc htok hget)
  · intro sid s htok hget he
    exact adminContactsPage_mw_redirect now m req store _
      (adminMiddleware_eq_expired now m req sid s hc htok hget he)
  · intro sid s htok hrtok hget he
    rw [adminContactsPage_mw_next now m req store
      (adminMiddleware_eq_valid now m req sid s hc htok hget he),
      requireAuth_eq_ok now m req sid s hrtok hget he]
  · intro sid s htok hrtok hget he
    rw [adminContactsPage_mw_next now m req store
      (adminMiddleware_eq_valid now m req sid s hc htok hget he),
      requireAuth_eq_no_token now m req hrtok]
  · intro hrtok
    rw [requireAuth_eq_no_token now m req hrtok]
  · intro sid hrtok hget
    rw [requireAuth_eq_unknown now m req sid hrtok hget]
  · intro sid s hrtok hget he
    rw [requireAuth_eq_expired now m req sid s hrtok hget he]

/-- Witness for the amended C3: with one live session `tok` — a cookie
token serves the page and extends the session; a missing token
redirects; at time 9000 the expired token deletes the session and
redirects. -/
theorem admin_gating_spec_witness :
    (adminContactsPage 1000
        [("tok", { username := "admin", createdAt := 0, expiresAt := 5000,
                   ip := "ip", userAgent := "ua" })]
        { cookieAdminSession := some "tok", url := "/contacts" }
        [] =
      (.page [],
        [("tok", { username := "admin", createdAt := 0, expiresAt := 1000 + dayMs,
                   ip := "ip", userAgent := "ua" })])) ∧
    (adminContactsPage 1000
        [("tok", { username := "admin", createdAt := 0, expiresAt := 5000,
                   ip := "ip", userAgent := "ua" })]
        { url := "/contacts" } [] =
      (.redirectLogin,
        [("tok", { username := "admin", createdAt := 0, expiresAt := 5000,
                   ip := "ip", userAgent := "ua" })])) ∧
    (adminContactsPage 9000
        [("tok", { username := "admin", createdAt := 0, expiresAt := 5000,
                   ip := "ip", userAgent := "ua" })]
        { cookieAdminSession := some "tok", url := "/contacts" } [] =
      (.redirectLogin, [])) := by
  refine ⟨?_, ?_, ?_⟩
  · have h := (admin_gating_spec 1000
      [("tok", { username := "admin", createdAt := 0, expiresAt := 5000,
                 ip := "ip", userAgent := "ua" })]
      { cookieAdminSession := some "tok", url := "/contacts" } [] (by decide)).2.2.2.1
      "tok" { username := "admin", createdAt := 0, expiresAt := 5000,
              ip := "ip", userAgent := "ua" }
      (by decide) (by decide) (by decide) (by decide)
    rw [h]
    rfl
  · exact (admin_gating_spec 1000
      [("tok", { username := "admin", createdAt := 0, expiresAt := 5000,
                 ip := "ip", userAgent := "ua" })]
      { url := "/contacts" } [] (by decide)).1 (by decide)
  · have h := (admin_gating_spec 9000
      [("tok", { username := "admin", createdAt := 0, expiresAt := 5000,
                 ip := "ip", userAgent := "ua" })]
      { cookieAdminSession := some "tok", url := "/contacts" } [] (by decide)).2.2.1
      "tok" { username := "admin", createdAt := 0, expiresAt := 5000,
              ip := "ip", userAgent := "ua" }
      (by decide) (by decide) (by decide)
    rw [h]
    rfl

/-- The logout handler reports success in every case. -/
theorem logoutHandler_success (m : Sessions) (req : Req) :
    (logoutHandler m req).1.success = true := by
  unfold logoutHandler
  rcases htok : jsTruthy (jsOr req.authorization req.xSessionId) with _ | sid
  · rfl
  · simp only
    rcases hget : sessionsGet m sid with _ | s <;> simp [hget]

/-- C4 counterexample: `POST /api/logout` with the session token
delivered ONLY as the `adminSession` cookie (exactly how login sets it)
reports success but does NOT remove the record: the same cookie token
still authenticates afterwards. -/
theorem logout_cookie_counterexample :
    (logoutHandler
        [("tok", { username := "admin", createdAt := 0, expiresAt := 5000,
                   ip := "ip", userAgent := "ua" })]
        { cookieAdminSession := some "tok" } =
      ({ success := true },
        [("tok", { username := "admin", createdAt := 0, expiresAt := 5000,
                   ip := "ip", userAgent := "ua" })])) ∧
    ((requireAuth 1000
        (logoutHandler
          [("tok", { username := "admin", createdAt := 0, expiresAt := 5000,
                     ip := "ip", userAgent := "ua" })]
          { cookieAdminSession := some "tok" }).2
        { cookieAdminSession := some "tok" }).1 = .ok) := by
  decide

/-- C4 (amended): `POST /api/logout` always reports success and is
idempotent, and it removes the token's record when the token is presented
via the `Authorization` or `x-session-id` header; when no header token is
present (in particular when the token arrives only in the `adminSession`
cookie) the session map is left unchanged, so a cookie-only token keeps
authenticating. -/
theorem logout_spec (m : Sessions) (req : Req) :
    (logoutHandler m req).1.success = true ∧
    (∀ sid, jsTruthy (jsOr req.authorization req.xSessionId) = some sid →
      sessionsGet (logoutHandler m req).2 sid = none) ∧
    (jsTruthy (jsOr req.authorization req.xSessionId) = none →
      (logoutHandler m req).2 = m) ∧
    (logoutHandler (logoutHandler m req).2 req).1.success = true := by
  refine ⟨logoutHandler_success m req, ?_, ?_, logoutHandler_success _ req⟩
  · intro sid htok
    unfold logoutHandler
    simp only [htok]
    rcases hget : sessionsGet m sid with _ | s
    · simpa [hget] using hget
    · simp only [hget]
      exact sessionsGet_delete_self m sid
  · intro htok
    unfold logoutHandler
    simp only [htok]

/-- Witness for the amended C4: logging out with the token in the
`Authorization` header removes the record (the token no longer resolves),
reports success, and a second logout still reports success; with the
token only in the cookie, the map is unchanged. -/
theorem logout_spec_witness :
    ((logoutHandler
        [("tok", { username := "admin", createdAt := 0, expiresAt := 5000,
                   ip := "ip", userAgent := "ua" })]
        { authorization := some "tok" }).1.success = true) ∧
    (sessionsGet
        (logoutHandler
          [("tok", { username := "admin", createdAt := 0, expiresAt := 5000,
                     ip := "ip", userAgent := "ua" })]
          { authorization := some "tok" }).2 "tok" = none) ∧
    ((logoutHandler
        [("tok", { username := "admin", createdAt := 0, expiresAt := 5000,
                   ip := "ip", userAgent := "ua" })]
        { cookieAdminSession := some "tok" }).2 =
      [("tok", { username := "admin", createdAt := 0, expiresAt := 5000,
                 ip := "ip", userAgent := "ua" })]) ∧
    ((logoutHandler
        (logoutHandler
          [("tok", { username := "admin", createdAt := 0, expiresAt := 5000,
                     ip := "ip", userAgent := "ua" })]
          { authorization := some "tok" }).2
        { authorization := some "tok" }).1.success = true) := by
  refine ⟨?_, ?_, ?_, ?_⟩
  · exact (logout_spec
      [("tok", { username := "admin", createdAt := 0, expiresAt := 5000,
                 ip := "ip", userAgent := "ua" })]
      { authorization := some "tok" }).1
  · exact (logout_spec
      [("tok", { username := "admin", createdAt := 0, expiresAt := 5000,
                 ip := "ip", userAgent := "ua" })]
      { authorization := some "tok" }).2.1 "tok" (by decide)
  · exact (logout_spec
      [("tok", { username := "admin", createdAt := 0, expiresAt := 5000,
                 ip := "ip", userAgent := "ua" })]
      { cookieAdminSession := some "tok" }).2.2.1 (by decide)
  · exact (logout_spec
      [("tok", { username := "admin", createdAt := 0, expiresAt := 5000,
                 ip := "ip", userAgent := "ua" })]
      { authorization := some "tok" }).2.2.2


/-- One-step unfolding of the `sendContactEmail` recursion. -/
theorem sendContactEmail_unfold (env : EmailEnv) (sm : Nat → SendOutcome) (rc : Nat) :
    sendContactEmail env sm rc =
      match attemptSend env sm rc with
      | .sent mid => ({ success := true, messageId := some mid, error := none }, 1, 0)
      | .errored e =>
        if rc < 2 then
          ((sendContactEmail env sm (rc + 1)).1,
            (sendContactEmail env sm (rc + 1)).2.1 + 1,
            (sendContactEmail env sm (rc + 1)).2.2 + 2000)
        else ({ success := false, messageId := none, error := some e }, 1, 0) := by
  rw [sendContactEmail]
  rcases attemptSend env sm rc with mid | e
  · rfl
  · by_cases h : rc < 2
    · simp [h]
    · simp [h]

/-- If every attempt fails, `sendContactEmail` resolves with a failure
object (`success: false` with an error message), from any retry count. -/
theorem sendContactEmail_all_fail (env : EmailEnv) (sm : Nat → SendOutcome)
    (hf : ∀ n, (attemptSend env sm n).isSent = false) :
    ∀ rc, (sendContactEmail env sm rc).1.success = false ∧
      (sendContactEmail env sm rc).1.error.isSome = true := by
  have key : ∀ d rc, 2 - rc ≤ d →
      (sendContactEmail env sm rc).1.success = false ∧
      (sendContactEmail env sm rc).1.error.isSome = true := by
    intro d
    induction d with
    | zero =>
      intro rc h
      rw [sendContactEmail_unfold]
      rcases ha : attemptSend env sm rc with mid | e
      · have hh := hf rc
        rw [ha] at hh
        exact absurd hh (by simp [SendOutcome.isSent])
      · have hrc : ¬ rc < 2 := by omega
        simp [hrc]
    | succ d ih =>
      intro rc h
      rw [sendContactEmail_unfold]
      rcases ha : attemptSend env sm rc with mid | e
      · have := hf rc
        rw [ha] at this
        exact absurd this (by simp [SendOutcome.isSent])
      · by_cases hrc : rc < 2
        · simp only [if_pos hrc]
          exact ih (rc + 1) (by omega)
        · simp [hrc]
  exact fun rc => key (2 - rc) rc (Nat.le_refl _)

/-- `sendContactEmail` makes at most `3 - rc` attempts from retry count
`rc`, with a fixed 2000 ms delay between consecutive attempts (total
delay `2000 * (attempts - 1)`). -/
theorem sendContactEmail_attempts (env : EmailEnv) (sm : Nat → SendOutcome) :
    ∀ d rc, 2 - rc ≤ d →
      (sendContactEmail env sm rc).2.1 ≤ d + 1 ∧
      1 ≤ (sendContactEmail env sm rc).2.1 ∧
      (sendContactEmail env sm rc).2.2 =
        2000 * ((sendContactEmail env sm rc).2.1 - 1) := by
  intro d
  induction d with
  | zero =>
    intro rc h
    rw [sendContactEmail_unfold]
    rcases ha : attemptSend env sm rc with mid | e
    · simp
    · have hrc : ¬ rc < 2 := by omega
      simp [hrc]
  | succ d ih =>
    intro rc h
    rw [sendContactEmail_unfold]
    rcases ha : attemptSend env sm rc with mid | e
    · simp
    · by_cases hrc : rc < 2
      · simp only [if_pos hrc]
        obtain ⟨h1, h2, h3⟩ := ih (rc + 1) (by omega)
        refine ⟨by omega, by omega, ?_⟩
        show (sendContactEmail env sm (rc + 1)).2.2 + 2000 =
          2000 * ((sendContactEmail env sm (rc + 1)).2.1 + 1 - 1)
        omega
      · simp [hrc]

/-- C5: for every submission passing field validation,
`POST /api/save-contact` appends exactly one record to the store; the
record's email is the submitted email (trimmed by the validator)
lowercased and truncated to 100 characters, its id is the assigned
integer `Date.now()`; the handler responds 200 success carrying that id
and `emailSent: true`; and a subsequent `GET /api/contacts` includes the
new record. -/
theorem save_contact_success (emailOk : String → Bool) (now : Nat)
    (nowIso ip : String) (userAgent : Option String) (b : ContactBody)
    (store : List ContactRecord)
    (h : contactValidationErrors emailOk (trimBody b) = []) :
    ∃ r : ContactRecord,
      (saveContact emailOk now nowIso ip userAgent b store).2 = store ++ [r] ∧
      r.email = strTake (strLower (jsTrim b.email)) 100 ∧
      r.id = now ∧
      (saveContact emailOk now nowIso ip userAgent b store).1 =
        { status := 200, success := true, id := some now,
          emailSent := some true, errors := [] } ∧
      r ∈ getContacts (saveContact emailOk now nowIso ip userAgent b store).2 ∧
      (saveContact emailOk now nowIso ip userAgent b store).2.length =
        store.length + 1 := by
  have hres : saveContact emailOk now nowIso ip userAgent b store =
      ({ status := 200, success := true, id := some now,
         emailSent := some true, errors := [] },
        store ++
          [{ id := now
             name := strTake (jsTrim b.name) 100
             email := strTake (strLower (jsTrim b.email)) 100
             message := strTake (jsTrim b.message) 1000
             timestamp := tsOrNow b.timestamp nowIso
             ip := ip
             userAgent := (userAgent.map (fun ua => strTake ua 500)).getD "Unknown" }]) := by
    simp only [saveContact]
    rw [if_pos h]
    rfl
  refine ⟨_, by rw [hres], rfl, rfl, by rw [hres], ?_, by rw [hres]; simp⟩
  rw [hres]
  simp [getContacts]

/-- Witness for C5: the spec example — name "Jane Doe", email
"JANE@Example.com", message "Hi there" — stores a record with email
lowercased to "jane@example.com" and id 1234, and the response is a 200
success carrying that id. -/
theorem save_contact_success_witness :
    ∃ r : ContactRecord,
      (saveContact (fun _ => true) 1234 "2026-01-01" "9.9.9.9" (some "UA")
        { name := "Jane Doe", email := "JANE@Example.com", message := "Hi there" }
        []).2 = ([] : List ContactRecord) ++ [r] ∧
      r.email = strTake (strLower (jsTrim "JANE@Example.com")) 100 ∧
      r.id = 1234 ∧
      (saveContact (fun _ => true) 1234 "2026-01-01" "9.9.9.9" (some "UA")
        { name := "Jane Doe", email := "JANE@Example.com", message := "Hi there" }
        []).1 =
        { status := 200, success := true, id := some 1234,
          emailSent := some true, errors := [] } ∧
      r ∈ getContacts (saveContact (fun _ => true) 1234 "2026-01-01" "9.9.9.9"
        (some "UA")
        { name := "Jane Doe", email := "JANE@Example.com", message := "Hi there" }
        []).2 ∧
      (saveContact (fun _ => true) 1234 "2026-01-01" "9.9.9.9" (some "UA")
        { name := "Jane Doe", email := "JANE@Example.com", message := "Hi there" }
        []).2.length = ([] : List ContactRecord).length + 1 :=
  save_contact_success (fun _ => true) 1234 "2026-01-01" "9.9.9.9" (some "UA")
    { name := "Jane Doe", email := "JANE@Example.com", message := "Hi there" }
    [] (by decide)

/-- C6: for every submission failing field validation,
`POST /api/save-contact` responds 400 carrying the structured per-field
error list (which is nonempty) and performs no write: the store is
returned exactly as it was. -/
theorem save_contact_validation_failure (emailOk : String → Bool) (now : Nat)
    (nowIso ip : String) (userAgent : Option String) (b : ContactBody)
    (store : List ContactRecord)
    (h : contactValidationErrors emailOk (trimBody b) ≠ []) :
    (saveContact emailOk now nowIso ip userAgent b store).1.status = 400 ∧
    (saveContact emailOk now nowIso ip userAgent b store).1.success = false ∧
    (saveContact emailOk now nowIso ip userAgent b store).1.errors =
      contactValidationErrors emailOk (trimBody b) ∧
    (saveContact emailOk now nowIso ip userAgent b store).1.errors ≠ [] ∧
    (saveContact emailOk now nowIso ip userAgent b store).2 = store := by
  have hres : saveContact emailOk now nowIso ip userAgent b store =
      ({ status := 400, success := false, id := none, emailSent := none,
         errors := contactValidationErrors emailOk (trimBody b) }, store) := by
    simp only [saveContact]
    rw [if_neg h]
  rw [hres]
  exact ⟨rfl, rfl, rfl, h, rfl⟩

/-- Witness for C6: an empty message fails validation with exactly the
message-length error, responds 400, and leaves a one-record store
untouched. -/
theorem save_contact_validation_failure_witness :
    ((saveContact (fun _ => true) 99 "2026-01-01" "9.9.9.9" none
        { name := "Jane Doe", email := "jane@example.com", message := "" }
        [{ id := 1, name := "A", email := "a@x.com", message := "m",
           timestamp := "t", ip := "ip", userAgent := "ua" }]).1.status = 400) ∧
    ((saveContact (fun _ => true) 99 "2026-01-01" "9.9.9.9" none
        { name := "Jane Doe", email := "jane@example.com", message := "" }
        [{ id := 1, name := "A", email := "a@x.com", message := "m",
           timestamp := "t", ip := "ip", userAgent := "ua" }]).1.errors ≠ []) ∧
    ((saveContact (fun _ => true) 99 "2026-01-01" "9.9.9.9" none
        { name := "Jane Doe", email := "jane@example.com", message := "" }
        [{ id := 1, name := "A", email := "a@x.com", message := "m",
           timestamp := "t", ip := "ip", userAgent := "ua" }]).2 =
      [{ id := 1, name := "A", email := "a@x.com", message := "m",
         timestamp := "t", ip := "ip", userAgent := "ua" }]) := by
  have h := save_contact_validation_failure (fun _ => true) 99 "2026-01-01"
    "9.9.9.9" none
    { name := "Jane Doe", email := "jane@example.com", message := "" }
    [{ id := 1, name := "A", email := "a@x.com", message := "m",
       timestamp := "t", ip := "ip", userAgent := "ua" }] (by decide)
  exact ⟨h.1, h.2.2.2.1, h.2.2.2.2⟩

/-- C10: the `emailSent` field of every successful
`POST /api/save-contact` response is the literal `true`, independent of
the email environment: the handler sends the response without consulting
the transporter or credentials, and even when every send attempt of the
subsequent fire-and-forget `sendContactEmail` fails, the already-sent
response still carried `emailSent: true`. -/
theorem save_contact_emailSent_constant (emailOk : String → Bool) (now : Nat)
    (nowIso ip : String) (userAgent : Option String) (b : ContactBody)
    (store : List ContactRecord) (env : EmailEnv) (sendMail : Nat → SendOutcome)
    (h : contactValidationErrors emailOk (trimBody b) = []) :
    (saveContact emailOk now nowIso ip userAgent b store).1.emailSent =
      some true ∧
    ((∀ n, (attemptSend env sendMail n).isSent = false) →
      ((sendContactEmail env sendMail 0).1.success = false ∧
        (saveContact emailOk now nowIso ip userAgent b store).1.emailSent =
          some true)) := by
  have hresp : (saveContact emailOk now nowIso ip userAgent b store).1.emailSent =
      some true := by
    simp only [saveContact]
    rw [if_pos h]
  exact ⟨hresp, fun hf => ⟨(sendContactEmail_all_fail env sendMail hf 0).1, hresp⟩⟩

/-- Witness for C10: the Jane Doe submission gets `emailSent: true` even
though the transporter is absent and every send attempt fails. -/
theorem save_contact_emailSent_constant_witness :
    (saveContact (fun _ => true) 1234 "2026-01-01" "9.9.9.9" (some "UA")
      { name := "Jane Doe", email := "JANE@Example.com", message := "Hi there" }
      []).1.emailSent = some true ∧
    (sendContactEmail { transporterPresent := false, credentialsPresent := false }
      (fun _ => .errored "boom") 0).1.success = false := by
  have h := save_contact_emailSent_constant (fun _ => true) 1234 "2026-01-01"
    "9.9.9.9" (some "UA")
    { name := "Jane Doe", email := "JANE@Example.com", message := "Hi there" }
    [] { transporterPresent := false, credentialsPresent := false }
    (fun _ => .errored "boom") (by decide)
  exact ⟨h.1, (h.2 (fun _ => rfl)).1⟩

/-- C7 counterexample: a string value nested inside an array is returned
by `sanitizeInput` completely unchanged — the strip pass is never applied
to it (second conjunct: the same strip function applied directly would
have erased the script payload) and no truncation happens. So script-tag
content survives sanitization in array-valued fields, contradicting
"every string value has HTML tags stripped". -/
theorem sanitize_array_string_counterexample :
    sanitizeInput (fun s => if s.toList.contains '<' then "" else s)
        (.obj [("a", .arr [.str "<script>alert(1)</script>"])]) =
      .obj [("a", .arr [.str "<script>alert(1)</script>"])] ∧
    (fun s => if s.toList.contains '<' then "" else s)
        "<script>alert(1)</script>" = "" := by
  exact ⟨rfl, rfl⟩

/-- C7 (amended): for every strip pass and every JSON value — all object
keys of the sanitized output, at any depth, contain only `[A-Za-z0-9_]`;
a string that is the direct value of an object field passes through the
strip pass and is truncated to at most 10000 characters; but a string
that is an array element or the top-level value passes through entirely
unchanged (arrays only map `sanitizeInput` over their items, which leaves
strings as-is), and non-string non-object values pass through
unchanged. -/
theorem sanitize_spec (strip : String → String) (j : Json) (k : String)
    (s : String) (items : List Json) (fields : List (String × Json))
    (n : Int) (bv : Bool) :
    jsonKeysOk (sanitizeInput strip j) = true ∧
    sanitizeObj strip ((k, .str s) :: fields) =
      (keyClean k, .str (truncate10000 (strip s))) :: sanitizeObj strip fields ∧
    (truncate10000 (strip s)).length ≤ 10000 ∧
    sanitizeInput strip (.str s) = .str s ∧
    sanitizeInput strip (.arr items) = .arr (items.map (sanitizeInput strip)) ∧
    sanitizeInput strip (.num n) = .num n ∧
    sanitizeInput strip (.bool bv) = .bool bv ∧
    sanitizeInput strip .null = .null ∧
    sanitizeField strip (.num n) = .num n ∧
    sanitizeField strip (.bool bv) = .bool bv :=
  ⟨sanitize_keys strip j, rfl, truncate10000_length (strip s), rfl,
    by rw [sanitizeInput, sanitizeArr_eq_map], rfl, rfl, rfl, rfl, rfl⟩

/-- C8: `getCredentials()` is total — no exception reaches the caller,
every failure path yields `none`: missing file, unreadable file,
checksum mismatch over ciphertext+key, empty decryption output (wrong
key), unparsable plaintext, or a missing required field all return
`none`; otherwise it returns the parsed `{user, password, service}`
object. -/
theorem get_credentials_spec (sha256 decrypt : String → String)
    (parsePlain : String → PlainParse) (key : String) :
    getCredentials sha256 decrypt parsePlain key .missing = none ∧
    getCredentials sha256 decrypt parsePlain key .unreadable = none ∧
    (∀ f : EncFile, f.checksum ≠ sha256 (f.data ++ key) →
      getCredentials sha256 decrypt parsePlain key (.parsed f) = none) ∧
    (∀ f : EncFile, decrypt f.data = "" →
      getCredentials sha256 decrypt parsePlain key (.parsed f) = none) ∧
    (∀ f : EncFile, parsePlain (decrypt f.data) = .bad →
      getCredentials sha256 decrypt parsePlain key (.parsed f) = none) ∧
    (∀ (f : EncFile) (u p s : Option String),
      parsePlain (decrypt f.data) = .ok u p s →
      (u = none ∨ p = none ∨ s = none) →
      getCredentials sha256 decrypt parsePlain key (.parsed f) = none) ∧
    (∀ (f : EncFile) (u p s : String),
      f.checksum = sha256 (f.data ++ key) → decrypt f.data ≠ "" →
      parsePlain (decrypt f.data) = .ok (some u) (some p) (some s) →
      u ≠ "" → p ≠ "" → s ≠ "" →
      getCredentials sha256 decrypt parsePlain key (.parsed f) =
        some { user := u, password := p, service := s }) := by
  refine ⟨rfl, rfl, ?_, ?_, ?_, ?_, ?_⟩
  · intro f h
    simp [getCredentials, h]
  · intro f h
    by_cases hc : f.checksum ≠ sha256 (f.data ++ key) <;>
      simp [getCredentials, hc, h]
  · intro f h
    by_cases hc : f.checksum ≠ sha256 (f.data ++ key) <;>
      by_cases hd : decrypt f.data = "" <;>
        simp [getCredentials, hc, hd, h]
  · intro f u p s hpp hnone
    by_cases hc : f.checksum ≠ sha256 (f.data ++ key) <;>
      by_cases hd : decrypt f.data = "" <;>
        rcases u with _ | u <;> rcases p with _ | p <;> rcases s with _ | s <;>
          simp_all [getCredentials]
  · intro f u p s hc hd hpp hu hp hs
    have hc2 : ¬ f.checksum ≠ sha256 (f.data ++ key) := by simp [hc]
    simp [getCredentials, hc2, hd, hpp, hu, hp, hs]

/-- Witness for C8: with concrete hash/decrypt/parse primitives — a
missing file yields `none`, a checksum mismatch yields `none`, and a
well-formed blob decrypts to the parsed credentials object. -/
theorem get_credentials_spec_witness :
    getCredentials (fun s => s ++ "#") (fun s => s)
      (fun s => if s = "PLAIN"
        then PlainParse.ok (some "u") (some "pw") (some "gmail")
        else PlainParse.bad) "K" .missing = none ∧
    getCredentials (fun s => s ++ "#") (fun s => s)
      (fun s => if s = "PLAIN"
        then PlainParse.ok (some "u") (some "pw") (some "gmail")
        else PlainParse.bad) "K"
      (.parsed { data := "X", checksum := "tampered" }) = none ∧
    getCredentials (fun s => s ++ "#") (fun s => s)
      (fun s => if s = "PLAIN"
        then PlainParse.ok (some "u") (some "pw") (some "gmail")
        else PlainParse.bad) "K"
      (.parsed { data := "PLAIN", checksum := "PLAINK#" }) =
      some { user := "u", password := "pw", service := "gmail" } := by
  refine ⟨(get_credentials_spec _ _ _ _).1, ?_, ?_⟩
  · exact (get_credentials_spec _ _ _ _).2.2.1
      { data := "X", checksum := "tampered" } (by decide)
  · exact (get_credentials_spec _ _ _ _).2.2.2.2.2.2
      { data := "PLAIN", checksum := "PLAINK#" } "u" "pw" "gmail"
      (by decide) (by decide) (by decide) (by decide) (by decide) (by decide)

/-- C9: `sendContactEmail` terminates (it is a total function of this
embedding) making at most 3 attempts in total — 1 initial plus up to 2
retries (`maxRetries = 2`) — with a fixed 2000 ms delay between
consecutive attempts (total delay `2000 * (attempts - 1)`); and if every
attempt fails it resolves with a failure result object
(`success: false` plus an error message), never a thrown exception. -/
theorem send_contact_email_spec (env : EmailEnv) (sendMail : Nat → SendOutcome) :
    (sendContactEmail env sendMail 0).2.1 ≤ 3 ∧
    1 ≤ (sendContactEmail env sendMail 0).2.1 ∧
    (sendContactEmail env sendMail 0).2.2 =
      2000 * ((sendContactEmail env sendMail 0).2.1 - 1) ∧
    ((∀ n, (attemptSend env sendMail n).isSent = false) →
      (sendContactEmail env sendMail 0).1.success = false ∧
      (sendContactEmail env sendMail 0).1.error.isSome = true) := by
  obtain ⟨h1, h2, h3⟩ := sendContactEmail_attempts env sendMail 2 0 (by omega)
  exact ⟨by omega, h2, h3, fun hf => sendContactEmail_all_fail env sendMail hf 0⟩

/-- Witness for C9: with no transporter configured and a permanently
failing send, the function makes exactly 3 attempts, waits 4000 ms in
total, and resolves with a failure object. -/
theorem send_contact_email_spec_witness :
    (sendContactEmail { transporterPresent := false, credentialsPresent := false }
      (fun _ => .errored "boom") 0).2.1 ≤ 3 ∧
    (sendContactEmail { transporterPresent := false, credentialsPresent := false }
      (fun _ => .errored "boom") 0).1.success = false := by
  have h := send_contact_email_spec
    { transporterPresent := false, credentialsPresent := false }
    (fun _ => .errored "boom")
  exact ⟨h.1, (h.2.2.2 (fun _ => rfl)).1⟩

end Portfolio
